import Mathlib

/-!
Verification development for the Spotify MCP server's OAuth 2.1 + session
core (`src/server/oauth-provider`, `src/server/auth-store`, and the token
refresh path in the tool-call helper).  The definitions below are a shallow
embedding of that TypeScript code: JS `Map`s become association lists with
JS insertion-order semantics, `Date.now()` becomes an explicit `nowMs : Nat`
argument, `randomBytes(..)` results become explicit arguments, and Node's
`crypto` / `jose` primitives (SHA-256, HMAC-SHA256, base64url) are
implemented concretely so everything evaluates.
-/

/-! ## JS `Map` model -/

/-- `Map.get`: first binding of the key, if any (keys are unique in a JS map). -/
def mapGet {α : Type} (m : List (String × α)) (k : String) : Option α :=
  match m with
  | [] => none
  | (k', v) :: rest => if k' = k then some v else mapGet rest k

/-- `Map.set`: replace the binding in place (JS keeps insertion order), else
append at the end. -/
def mapSet {α : Type} (m : List (String × α)) (k : String) (v : α) : List (String × α) :=
  match m with
  | [] => [(k, v)]
  | (k', v') :: rest => if k' = k then (k, v) :: rest else (k', v') :: mapSet rest k v

/-- `Map.delete`: drop the binding of the key (a JS map holds it at most once,
so dropping every occurrence agrees with it). -/
def mapDelete {α : Type} (m : List (String × α)) (k : String) : List (String × α) :=
  m.filter (fun kv => kv.1 != k)

/-! ## SHA-256 (Node `crypto.createHash("sha256")`) -/

/-- 2^32, the word modulus. -/
def w32 : Nat := 4294967296

/-- Rotate a 32-bit word right by `n`. -/
def rotr32 (n x : Nat) : Nat := ((x >>> n) ||| (x <<< (32 - n))) % w32

/-- SHA-256 round constants. -/
def sha256K : List Nat :=
  [1116352408, 1899447441, 3049323471, 3921009573, 961987163, 1508970993,
   2453635748, 2870763221, 3624381080, 310598401, 607225278, 1426881987,
   1925078388, 2162078206, 2614888103, 3248222580, 3835390401, 4022224774,
   264347078, 604807628, 770255983, 1249150122, 1555081692, 1996064986,
   2554220882, 2821834349, 2952996808, 3210313671, 3336571891, 3584528711,
   113926993, 338241895, 666307205, 773529912, 1294757372, 1396182291,
   1695183700, 1986661051, 2177026350, 2456956037, 2730485921, 2820302411,
   3259730800, 3345764771, 3516065817, 3600352804, 4094571909, 275423344,
   430227734, 506948616, 659060556, 883997877, 958139571, 1322822218,
   1537002063, 1747873779, 1955562222, 2024104815, 2227730452, 2361852424,
   2428436474, 2756734187, 3204031479, 3329325298]

/-- SHA-256 initial hash value. -/
def sha256H0 : List Nat :=
  [1779033703, 3144134277, 1013904242, 2773480762,
   1359893119, 2600822924, 528734635, 1541459225]

/-- The eight working variables of the compression loop. -/
structure Sha256St where
  a : Nat
  b : Nat
  c : Nat
  d : Nat
  e : Nat
  f : Nat
  g : Nat
  h : Nat

/-- One compression round; `kw` is the pair of round constant and schedule word. -/
def sha256Round (st : Sha256St) (kw : Nat × Nat) : Sha256St :=
  let S1 := rotr32 6 st.e ^^^ rotr32 11 st.e ^^^ rotr32 25 st.e
  let ch := (st.e &&& st.f) ^^^ ((st.e ^^^ 4294967295) &&& st.g)
  let temp1 := (st.h + S1 + ch + kw.1 + kw.2) % w32
  let S0 := rotr32 2 st.a ^^^ rotr32 13 st.a ^^^ rotr32 22 st.a
  let maj := (st.a &&& st.b) ^^^ (st.a &&& st.c) ^^^ (st.b &&& st.c)
  let temp2 := (S0 + maj) % w32
  { a := (temp1 + temp2) % w32, b := st.a, c := st.b, d := st.c,
    e := (st.d + temp1) % w32, f := st.e, g := st.f, h := st.g }

/-- Big-endian 32-bit words from bytes (length a multiple of 4). -/
def bytesToWords : List Nat → List Nat
  | b1 :: b2 :: b3 :: b4 :: rest =>
    ((((b1 <<< 8) ||| b2) <<< 8 ||| b3) <<< 8 ||| b4) :: bytesToWords rest
  | _ => []

/-- Extend the 16 schedule words to 64, `fuel` = 48 more to produce. -/
def sha256Extend : Nat → List Nat → List Nat
  | 0, ws => ws
  | fuel + 1, ws =>
    let i := ws.length
    let w15 := ws.getD (i - 15) 0
    let w2 := ws.getD (i - 2) 0
    let w7 := ws.getD (i - 7) 0
    let w16 := ws.getD (i - 16) 0
    let s0 := rotr32 7 w15 ^^^ rotr32 18 w15 ^^^ (w15 >>> 3)
    let s1 := rotr32 17 w2 ^^^ rotr32 19 w2 ^^^ (w2 >>> 10)
    sha256Extend fuel (ws ++ [(w16 + s0 + w7 + s1) % w32])

/-- Compress one 64-byte chunk into the running hash (8 words). -/
def sha256Chunk (hs : List Nat) (chunk : List Nat) : List Nat :=
  let ws := sha256Extend 48 (bytesToWords chunk)
  let init : Sha256St :=
    ⟨hs.getD 0 0, hs.getD 1 0, hs.getD 2 0, hs.getD 3 0,
     hs.getD 4 0, hs.getD 5 0, hs.getD 6 0, hs.getD 7 0⟩
  let fin := (sha256K.zip ws).foldl sha256Round init
  [(hs.getD 0 0 + fin.a) % w32, (hs.getD 1 0 + fin.b) % w32,
   (hs.getD 2 0 + fin.c) % w32, (hs.getD 3 0 + fin.d) % w32,
   (hs.getD 4 0 + fin.e) % w32, (hs.getD 5 0 + fin.f) % w32,
   (hs.getD 6 0 + fin.g) % w32, (hs.getD 7 0 + fin.h) % w32]

/-- Split into 64-byte chunks; the fuel (initial length) bounds recursion. -/
def chunksOf64Aux : Nat → List Nat → List (List Nat)
  | 0, _ => []
  | fuel + 1, bs =>
    if bs.isEmpty then [] else bs.take 64 :: chunksOf64Aux fuel (bs.drop 64)

def chunksOf64 (bs : List Nat) : List (List Nat) := chunksOf64Aux bs.length bs

/-- Big-endian 64-bit length field of the padding. -/
def be64 (n : Nat) : List Nat :=
  [(n >>> 56) &&& 255, (n >>> 48) &&& 255, (n >>> 40) &&& 255, (n >>> 32) &&& 255,
   (n >>> 24) &&& 255, (n >>> 16) &&& 255, (n >>> 8) &&& 255, n &&& 255]

/-- Big-endian bytes of one hash word. -/
def wordToBytesBE (w : Nat) : List Nat :=
  [(w >>> 24) &&& 255, (w >>> 16) &&& 255, (w >>> 8) &&& 255, w &&& 255]

/-- SHA-256 of a byte string, as its 32 digest bytes. -/
def sha256 (msg : List Nat) : List Nat :=
  let zeros := (64 - ((msg.length + 9) % 64)) % 64
  let padded := msg ++ [128] ++ List.replicate zeros 0 ++ be64 (8 * msg.length)
  let hs := (chunksOf64 padded).foldl sha256Chunk sha256H0
  hs.foldr (fun w acc => wordToBytesBE w ++ acc) []

/-! ## UTF-8 and base64url -/

/-- UTF-8 encoding of one character. -/
def utf8EncodeChar (c : Char) : List Nat :=
  let n := c.toNat
  if n < 128 then [n]
  else if n < 2048 then [192 + n / 64, 128 + n % 64]
  else if n < 65536 then [224 + n / 4096, 128 + (n / 64) % 64, 128 + n % 64]
  else [240 + n / 262144, 128 + (n / 4096) % 64, 128 + (n / 64) % 64, 128 + n % 64]

/-- UTF-8 bytes of a string (what `TextEncoder` / `hash.update(string)` hash). -/
def utf8Bytes (s : String) : List Nat :=
  s.data.foldr (fun c acc => utf8EncodeChar c ++ acc) []

/-- The base64url alphabet. -/
def b64Char (n : Nat) : Char :=
  "ABCDEFGHIJKLMNOPQRSTUVWXYZabcdefghijklmnopqrstuvwxyz0123456789-_".data.getD n 'A'

/-- Base64url without padding (Node digest encoding `"base64url"`). -/
def base64urlEncode : List Nat → List Char
  | [] => []
  | [b1] => [b64Char (b1 >>> 2), b64Char ((b1 &&& 3) <<< 4)]
  | [b1, b2] =>
    [b64Char (b1 >>> 2), b64Char (((b1 &&& 3) <<< 4) ||| (b2 >>> 4)),
     b64Char ((b2 &&& 15) <<< 2)]
  | b1 :: b2 :: b3 :: rest =>
    b64Char (b1 >>> 2) :: b64Char (((b1 &&& 3) <<< 4) ||| (b2 >>> 4)) ::
    b64Char (((b2 &&& 15) <<< 2) ||| (b3 >>> 6)) :: b64Char (b3 &&& 63) ::
    base64urlEncode rest

/-- Base64url (no padding) of a string's UTF-8 bytes. -/
def base64urlOfString (s : String) : String :=
  String.mk (base64urlEncode (utf8Bytes s))

/-- `generateCodeChallenge`: SHA-256 of the verifier, base64url, no padding
(`createHash("sha256").update(verifier).digest("base64url")`). -/
def OAuthProvider.generateCodeChallenge (verifier : String) : String :=
  String.mk (base64urlEncode (sha256 (utf8Bytes verifier)))

/-! ## HMAC-SHA256 and the JWT model (`jose` `SignJWT` / `jwtVerify`, HS256) -/

/-- HMAC-SHA256 (RFC 2104) with a 64-byte block. -/
def hmacSHA256 (key msg : List Nat) : List Nat :=
  let k0 := if 64 < key.length then sha256 key else key
  let kpad := k0 ++ List.replicate (64 - k0.length) 0
  let ipad := kpad.map (fun b => b ^^^ 54)
  let opad := kpad.map (fun b => b ^^^ 92)
  sha256 (opad ++ sha256 (ipad ++ msg))

/-- JWT claims set produced by `createAccessToken`: the claims passed to
`SignJWT` plus `iat`/`exp`/`aud`/`iss` appended by the builder calls, in
that order.  Times are epoch seconds. -/
structure JWTPayload where
  sub : String
  spotify_access_token : String
  spotify_refresh_token : String
  iat : Nat
  exp : Nat
  aud : String
  iss : String
deriving DecidableEq, Repr

/-- A signed token: the claims plus the HS256 signature bytes.  (The compact
serialization is `b64(header).b64(payload).b64(signature)`; we keep the
parsed form plus the raw signature.) -/
structure JWT where
  payload : JWTPayload
  signature : List Nat
deriving DecidableEq, Repr

def hexDigit (n : Nat) : Char := "0123456789abcdef".data.getD n '0'

/-- JSON string escaping as `JSON.stringify` performs it. -/
def jsonEscapeChar (c : Char) : List Char :=
  if c = '"' then ['\\', '"']
  else if c = '\\' then ['\\', '\\']
  else if c = '\x08' then ['\\', 'b']
  else if c = '\x09' then ['\\', 't']
  else if c = '\x0a' then ['\\', 'n']
  else if c = '\x0c' then ['\\', 'f']
  else if c = '\x0d' then ['\\', 'r']
  else if c.toNat < 32 then ['\\', 'u', '0', '0', hexDigit (c.toNat / 16), hexDigit (c.toNat % 16)]
  else [c]

def jsonString (s : String) : String :=
  "\"" ++ String.mk (s.data.foldr (fun c acc => jsonEscapeChar c ++ acc) []) ++ "\""

/-- The protected header set by `setProtectedHeader({ alg: "HS256" })`. -/
def jwtHeaderJSON : String := "\x7b\"alg\":\"HS256\"\x7d"

/-- JSON serialization of the claims set, keys in JS insertion order. -/
def payloadJSON (p : JWTPayload) : String :=
  "\x7b\"sub\":" ++ jsonString p.sub
    ++ ",\"spotify_access_token\":" ++ jsonString p.spotify_access_token
    ++ ",\"spotify_refresh_token\":" ++ jsonString p.spotify_refresh_token
    ++ ",\"iat\":" ++ toString p.iat
    ++ ",\"exp\":" ++ toString p.exp
    ++ ",\"aud\":" ++ jsonString p.aud
    ++ ",\"iss\":" ++ jsonString p.iss
    ++ "\x7d"

/-- The HS256 signing input `b64url(header) ++ "." ++ b64url(payload)`. -/
def signingInput (p : JWTPayload) : List Nat :=
  utf8Bytes (base64urlOfString jwtHeaderJSON ++ "." ++ base64urlOfString (payloadJSON p))

/-! ## Server configuration and OAuth data model -/

/-- `ServerConfig` + `validRedirectUris` (`OAuthConfig`). -/
structure OAuthConfig where
  SPOTIFY_CLIENT_ID : String
  SPOTIFY_CLIENT_SECRET : String
  REDIRECT_URL : String
  JWT_SECRET : String
  OAUTH_ISSUER : String
  validRedirectUris : List String
deriving Repr

/-- Delegated Spotify credential pair carried through the flow. -/
structure SpotifyTokens where
  accessToken : String
  refreshToken : String
deriving DecidableEq, Repr

/-- `PendingAuthorization` — exactly the source interface.  Note it stores no
expiry timestamp; `state` is optional at runtime (the query parameter may be
absent despite the `as string` cast). -/
structure PendingAuthorization where
  clientId : String
  redirectUri : String
  codeChallenge : String
  codeChallengeMethod : String
  state : Option String
  scope : String
  spotifyState : String
deriving DecidableEq, Repr

/-- `AuthorizationCode` — carries its own `expiresAt` (ms epoch). -/
structure AuthorizationCode where
  clientId : String
  redirectUri : String
  codeChallenge : String
  userId : String
  spotifyTokens : SpotifyTokens
  expiresAt : Nat
deriving DecidableEq, Repr

/-- `RefreshTokenData` — carries its own `expiresAt` (ms epoch). -/
structure RefreshTokenData where
  userId : String
  clientId : String
  spotifyTokens : SpotifyTokens
  expiresAt : Nat
deriving DecidableEq, Repr

/-- The `OAuthProvider`'s three maps, plus the event-loop timers scheduled by
`setTimeout(() => pendingAuthorizations.delete(authKey), 10 min)` — each timer
is the pending key and the absolute ms time at which it fires. -/
structure OAuthStoreState where
  pendingAuthorizations : List (String × PendingAuthorization)
  authorizationCodes : List (String × AuthorizationCode)
  refreshTokens : List (String × RefreshTokenData)
  pendingTimers : List (String × Nat)
deriving Repr

def AUTHORIZATION_CODE_TIMEOUT_MS : Nat := 10 * 60 * 1000

def REFRESH_TOKEN_TIMEOUT_MS : Nat := 30 * 24 * 60 * 60 * 1000

/-- `AuthInfo` as built by `verifyAccessToken` (the `extra` fields inlined). -/
structure AuthInfo where
  token : JWT
  clientId : String
  scopes : List String
  expiresAt : Nat
  userId : String
  spotifyAccessToken : String
  spotifyRefreshToken : String
deriving DecidableEq, Repr

/-- `createAccessToken(userId, spotifyTokens)`: signs `{sub, spotify_access_token,
spotify_refresh_token}` with `setIssuedAt` (epoch seconds), one-hour expiry,
audience `spotify-mcp-server`, issuer from config, HS256 over the UTF-8 bytes
of `JWT_SECRET`. -/
def OAuthProvider.createAccessToken (cfg : OAuthConfig) (userId : String)
    (tokens : SpotifyTokens) (nowSec : Nat) : JWT :=
  let p : JWTPayload :=
    { sub := userId
      spotify_access_token := tokens.accessToken
      spotify_refresh_token := tokens.refreshToken
      iat := nowSec
      exp := nowSec + 3600
      aud := "spotify-mcp-server"
      iss := cfg.OAUTH_ISSUER }
  { payload := p, signature := hmacSHA256 (utf8Bytes cfg.JWT_SECRET) (signingInput p) }

/-- `verifyAccessToken`: `jwtVerify(token, secret, {audience, issuer})` checks
the HS256 signature, the `aud` and `iss` claims and that `exp` is in the
future; any failure is caught and rethrown as the single generic
`"Invalid or expired access token"` error. -/
def OAuthProvider.verifyAccessToken (cfg : OAuthConfig) (token : JWT) (nowSec : Nat) :
    Except String AuthInfo :=
  if token.signature = hmacSHA256 (utf8Bytes cfg.JWT_SECRET) (signingInput token.payload)
      ∧ token.payload.aud = "spotify-mcp-server"
      ∧ token.payload.iss = cfg.OAUTH_ISSUER
      ∧ nowSec < token.payload.exp then
    .ok { token := token
          clientId := "mcp-client"
          scopes := ["read"]
          expiresAt := token.payload.exp
          userId := token.payload.sub
          spotifyAccessToken := token.payload.spotify_access_token
          spotifyRefreshToken := token.payload.spotify_refresh_token }
  else
    .error "Invalid or expired access token"

/-! ## Redirect URI validation (`/oauth/authorize`, also `/oauth/register`) -/

def isAsciiAlpha (c : Char) : Bool :=
  (97 ≤ c.toNat && c.toNat ≤ 122) || (65 ≤ c.toNat && c.toNat ≤ 90)

def isSchemeChar (c : Char) : Bool :=
  isAsciiAlpha c || (48 ≤ c.toNat && c.toNat ≤ 57) || c = '+' || c = '-' || c = '.'

/-- What `new URL(..)` exposes of a parsed URL here: `protocol` (scheme with
trailing colon, lowercased) and `hostname` (lowercased). -/
structure URLParts where
  protocol : String
  hostname : String
deriving DecidableEq, Repr

/-- Model of the WHATWG `new URL(..)` constructor, restricted to what the
validation reads: the scheme before the first colon (must start with a letter
and use scheme characters, else the constructor throws), and for
`scheme://host...` URLs the authority up to the first `/ : ? #`.  Special
schemes (http, https, ws, wss, ftp) require a nonempty host. -/
def parseURL (s : String) : Option URLParts :=
  let cs := s.data
  let schemeCs := cs.takeWhile (fun c => c ≠ ':')
  let rest := cs.drop schemeCs.length
  match rest with
  | [] => none
  | _ :: afterColon =>
    if schemeCs.isEmpty then none
    else if !(isAsciiAlpha (schemeCs.headD 'a') && schemeCs.all isSchemeChar) then none
    else
      let scheme := String.mk (schemeCs.map Char.toLower)
      let hostname :=
        match afterColon with
        | '/' :: '/' :: hostRest =>
          String.mk ((hostRest.takeWhile
            (fun c => c ≠ '/' ∧ c ≠ ':' ∧ c ≠ '?' ∧ c ≠ '#')).map Char.toLower)
        | _ => ""
      if (scheme = "http" ∨ scheme = "https" ∨ scheme = "ws" ∨ scheme = "wss" ∨ scheme = "ftp")
          ∧ hostname = "" then none
      else some ⟨scheme ++ ":", hostname⟩

/-- The regex `/^[a-zA-Z][a-zA-Z0-9+.-]*:$/` tested against `url.protocol`. -/
def schemeRegexMatches (p : String) : Bool :=
  match p.data with
  | [] => false
  | c :: rest =>
    match rest.reverse with
    | [] => false
    | lastC :: revMids => isAsciiAlpha c && lastC = ':' && revMids.all isSchemeChar

/-- The redirect-URI branch logic of the `/oauth/authorize` handler (and of
`/oauth/register`): HTTPS accepted, HTTP accepted when the hostname is
`localhost` or `127.0.0.1`, and otherwise any protocol matching the generic
scheme regex is accepted; everything else (or an unparseable URI) is an
`invalid_request` rejection. -/
def validateRedirectUriParts (url : URLParts) : Bool :=
  if url.protocol = "https:" then true
  else if url.protocol = "http:" ∧ (url.hostname = "localhost" ∨ url.hostname = "127.0.0.1") then
    true
  else if schemeRegexMatches url.protocol then true
  else false

def validateRedirectUri (uri : String) : Bool :=
  match parseURL uri with
  | none => false
  | some url => validateRedirectUriParts url

/-! ## The `/oauth/authorize` handler -/

/-- JS falsiness of an optional query/body string: absent or empty. -/
def strParamMissing : Option String → Bool
  | none => true
  | some s => s.data.isEmpty

/-- A structured OAuth error body. -/
structure ErrorBody where
  error : String
  error_description : String
deriving DecidableEq, Repr

/-- Query parameters of an authorization request (each may be absent). -/
structure AuthorizeRequest where
  client_id : Option String
  redirect_uri : Option String
  response_type : Option String
  code_challenge : Option String
  code_challenge_method : Option String
  state : Option String
  scope : Option String
deriving DecidableEq, Repr

/-- The query parameters the handler sets on the upstream consent URL
`https://accounts.spotify.com/authorize` (kept structured rather than
serialized). -/
structure SpotifyRedirectParams where
  client_id : String
  response_type : String
  state : String
  redirect_uri : String
  scope : String
  show_dialog : String
deriving DecidableEq, Repr

inductive AuthorizeOutcome where
  | err (status : Nat) (body : ErrorBody)
  | redirect (params : SpotifyRedirectParams)
deriving DecidableEq, Repr

/-- The session/credential bridge (`auth-store`): the session map plus the
process-wide `currentAuthInfo` slot. -/
structure SpotifyAuthInfo where
  userId : String
  spotifyAccessToken : String
  spotifyRefreshToken : String
deriving DecidableEq, Repr

structure AuthStore where
  authMap : List (String × SpotifyAuthInfo)
  currentAuthInfo : Option SpotifyAuthInfo
deriving DecidableEq, Repr

/-- `clearAuth()`: `authMap.clear()` and `currentAuthInfo = null`. -/
def clearAuth (_s : AuthStore) : AuthStore :=
  { authMap := [], currentAuthInfo := none }

/-- The scope string the handler requests from Spotify. -/
def spotifyConsentScope : String :=
  "user-read-private user-read-email user-library-read user-read-recently-played user-read-playback-state user-modify-playback-state user-read-currently-playing playlist-read-private playlist-read-collaborative playlist-modify-private playlist-modify-public"

/-- The `/oauth/authorize` handler.  `nowMs` is `Date.now()`; `spotifyState`
and `authKey` are the two `randomBytes(32).toString("hex")` draws.  The
tunnel-host branch only changes which callback URI is sent upstream; it is
resolved by `spotifyRedirectUri`, passed in by the caller of this pure
function.  Returns the HTTP outcome, the provider store (with the scheduled
`setTimeout` deletion as a timer entry), and the auth store (cleared on the
success path by `clearAuth()`). -/
def oauthAuthorize (cfg : OAuthConfig) (st : OAuthStoreState) (auth : AuthStore)
    (req : AuthorizeRequest) (nowMs : Nat) (spotifyState authKey : String)
    (spotifyRedirectUri : String) :
    AuthorizeOutcome × OAuthStoreState × AuthStore :=
  if strParamMissing req.client_id || strParamMissing req.redirect_uri
      || strParamMissing req.code_challenge then
    (.err 400 ⟨"invalid_request", "Missing required parameters"⟩, st, auth)
  else if req.response_type ≠ some "code" then
    (.err 400 ⟨"unsupported_response_type", "Only authorization code flow is supported"⟩,
     st, auth)
  else if req.code_challenge_method ≠ some "S256" then
    (.err 400 ⟨"invalid_request", "Only S256 code challenge method is supported"⟩, st, auth)
  else if !validateRedirectUri (req.redirect_uri.getD "") then
    (.err 400 ⟨"invalid_request",
       "Invalid redirect URI: must use HTTPS, localhost HTTP, or custom scheme"⟩, st, auth)
  else
    let pending : PendingAuthorization :=
      { clientId := req.client_id.getD ""
        redirectUri := req.redirect_uri.getD ""
        codeChallenge := req.code_challenge.getD ""
        codeChallengeMethod := req.code_challenge_method.getD ""
        state := req.state
        scope := req.scope.getD "read"
        spotifyState := spotifyState }
    let st' : OAuthStoreState :=
      { st with
        pendingAuthorizations := mapSet st.pendingAuthorizations authKey pending
        pendingTimers := st.pendingTimers ++ [(authKey, nowMs + AUTHORIZATION_CODE_TIMEOUT_MS)] }
    (.redirect
      { client_id := cfg.SPOTIFY_CLIENT_ID
        response_type := "code"
        state := authKey ++ ":" ++ spotifyState
        redirect_uri := spotifyRedirectUri
        scope := spotifyConsentScope
        show_dialog := "true" },
     st', clearAuth auth)

/-- Firing of the scheduled `setTimeout` sweeps: every timer due at `nowMs`
deletes its pending entry. -/
def runPendingTimers (st : OAuthStoreState) (nowMs : Nat) : OAuthStoreState :=
  { st with
    pendingAuthorizations :=
      st.pendingTimers.foldl
        (fun m kt => if kt.2 ≤ nowMs then mapDelete m kt.1 else m)
        st.pendingAuthorizations
    pendingTimers := st.pendingTimers.filter (fun kt => nowMs < kt.2) }

/-! ## The `/callback` pending-authorization lookup -/

/-- `const [authKey, spotifyState] = (state as string).split(":")` — the second
component is absent when the state has no colon. -/
def splitOnColon (cs : List Char) : List (List Char) :=
  match cs with
  | [] => [[]]
  | c :: rest =>
    let tailParts := splitOnColon rest
    if c = ':' then [] :: tailParts
    else
      match tailParts with
      | [] => [[c]]
      | p :: ps => (c :: p) :: ps

def splitStateParam (s : String) : String × Option String :=
  match splitOnColon s.data with
  | [] => ("", none)
  | [a] => (String.mk a, none)
  | a :: b :: _ => (String.mk a, some (String.mk b))

/-- The guard at the top of the `/callback` handler: look the pending
authorization up by the first state component and require the stored
`spotifyState` nonce to equal the second; `none` is the
`invalid_request` "Invalid state parameter" rejection.  Note the lookup
consults no clock: the handler performs no expiry comparison on pending
entries. -/
def callbackPendingCheck (st : OAuthStoreState) (stateParam : String) :
    Option PendingAuthorization :=
  let ks := splitStateParam stateParam
  match mapGet st.pendingAuthorizations ks.1 with
  | none => none
  | some pendingAuth =>
    if some pendingAuth.spotifyState = ks.2 then some pendingAuth else none

/-! ## The `/oauth/token` handler -/

/-- Body parameters of a token request (each may be absent). -/
structure TokenRequest where
  grant_type : Option String
  code : Option String
  redirect_uri : Option String
  code_verifier : Option String
  client_id : Option String
  refresh_token : Option String
deriving DecidableEq, Repr

/-- The JSON success body of the token endpoint; the refresh-token grant
omits the `refresh_token` member. -/
structure TokenSuccess where
  access_token : JWT
  token_type : String
  expires_in : Nat
  refresh_token : Option String
  scope : String
deriving DecidableEq, Repr

inductive TokenOutcome where
  | err (status : Nat) (body : ErrorBody)
  | ok (body : TokenSuccess)
deriving DecidableEq, Repr

/-- The HTTP status of a token outcome (`res.json` without `res.status` is 200). -/
def TokenOutcome.status : TokenOutcome → Nat
  | .err s _ => s
  | .ok _ => 200

/-- The `/oauth/token` handler.  `nowMs` is `Date.now()`;
`freshRefreshTokenId` is the `randomBytes(32).toString("hex")` draw used when
a refresh token is minted.  Returns the outcome and the updated store. -/
def oauthToken (cfg : OAuthConfig) (st : OAuthStoreState) (req : TokenRequest)
    (nowMs : Nat) (freshRefreshTokenId : String) : TokenOutcome × OAuthStoreState :=
  if req.grant_type = some "authorization_code" then
    if strParamMissing req.code || strParamMissing req.redirect_uri
        || strParamMissing req.code_verifier || strParamMissing req.client_id then
      (.err 400 ⟨"invalid_request", "Missing required parameters"⟩, st)
    else
      let codeStr := req.code.getD ""
      match mapGet st.authorizationCodes codeStr with
      | none =>
        (.err 400 ⟨"invalid_grant", "Invalid or expired authorization code"⟩,
         { st with authorizationCodes := mapDelete st.authorizationCodes codeStr })
      | some authCode =>
        if authCode.expiresAt < nowMs then
          (.err 400 ⟨"invalid_grant", "Invalid or expired authorization code"⟩,
           { st with authorizationCodes := mapDelete st.authorizationCodes codeStr })
        else if OAuthProvider.generateCodeChallenge (req.code_verifier.getD "")
            ≠ authCode.codeChallenge then
          (.err 400 ⟨"invalid_grant", "Invalid code verifier"⟩, st)
        else
          let accessToken :=
            OAuthProvider.createAccessToken cfg authCode.userId authCode.spotifyTokens
              (nowMs / 1000)
          let st' : OAuthStoreState :=
            { st with
              refreshTokens :=
                mapSet st.refreshTokens freshRefreshTokenId
                  { userId := authCode.userId
                    clientId := authCode.clientId
                    spotifyTokens := authCode.spotifyTokens
                    expiresAt := nowMs + REFRESH_TOKEN_TIMEOUT_MS }
              authorizationCodes := mapDelete st.authorizationCodes codeStr }
          (.ok
            { access_token := accessToken
              token_type := "Bearer"
              expires_in := 3600
              refresh_token := some freshRefreshTokenId
              scope := "read" }, st')
  else if req.grant_type = some "refresh_token" then
    if strParamMissing req.refresh_token then
      (.err 400 ⟨"invalid_request", "Missing refresh token"⟩, st)
    else
      let rt := req.refresh_token.getD ""
      match mapGet st.refreshTokens rt with
      | none =>
        (.err 400 ⟨"invalid_grant", "Invalid or expired refresh token"⟩,
         { st with refreshTokens := mapDelete st.refreshTokens rt })
      | some tokenData =>
        if tokenData.expiresAt < nowMs then
          (.err 400 ⟨"invalid_grant", "Invalid or expired refresh token"⟩,
           { st with refreshTokens := mapDelete st.refreshTokens rt })
        else
          (.ok
            { access_token :=
                OAuthProvider.createAccessToken cfg tokenData.userId tokenData.spotifyTokens
                  (nowMs / 1000)
              token_type := "Bearer"
              expires_in := 3600
              refresh_token := none
              scope := "read" }, st)
  else
    (.err 400 ⟨"unsupported_grant_type",
       "Only authorization_code and refresh_token grant types are supported"⟩, st)

/-! ## The authentication middleware -/

/-- Character-list prefix test (kernel-reducible `isPrefixOf`). -/
def charsPrefix : List Char → List Char → Bool
  | [], _ => true
  | _ :: _, [] => false
  | c :: cs, d :: ds => c = d && charsPrefix cs ds

/-- Does `needle` occur in `hay`?  Checks every suffix. -/
def charsContain (hay needle : List Char) : Bool :=
  charsPrefix needle hay ||
    (match hay with
     | [] => false
     | _ :: rest => charsContain rest needle)

/-- Substring test (`String.prototype.includes`). -/
def strContains (s sub : String) : Bool :=
  charsContain s.data sub.data

/-- Protocol determination behind proxies: `req.protocol`, overridden by the
`scheme` of a parsed `cf-visitor` header when truthy, overridden in turn by
`x-forwarded-proto`. -/
def effectiveProtocol (protocol : String) (cfScheme xForwardedProto : Option String) : String :=
  let p1 := match cfScheme with
    | some s => if s.isEmpty then protocol else s
    | none => protocol
  match xForwardedProto with
  | some s => s
  | none => p1

/-- What the middleware reads from an inbound request. -/
structure MCPRequest where
  authorization : Option String
  method : String
  accept : Option String
  protocol : String
  cfVisitorScheme : Option String
  xForwardedProto : Option String
  host : String
deriving DecidableEq, Repr

/-- The three ways the middleware can answer: a streamed SSE error frame, a
JSON error (with or without a `WWW-Authenticate` header), or passing the
request on with `req.auth` set. -/
inductive MiddlewareOutcome where
  | sseError (status : Nat) (eventName : String) (dataJson : String)
  | jsonError (status : Nat) (wwwAuthenticate : Option String) (body : ErrorBody)
  | next (auth : AuthInfo)
deriving DecidableEq, Repr

/-- `authMiddleware()`.  `verify` stands for `this.verifyAccessToken` applied
to the raw token string (the string-to-JWT decoding is jose's). -/
def authMiddleware (verify : String → Except String AuthInfo) (req : MCPRequest) :
    MiddlewareOutcome :=
  let isSSE := req.method = "GET"
    && (match req.accept with
        | some a => strContains a "text/event-stream"
        | none => false)
  let headerMissing := match req.authorization with
    | none => true
    | some h => !charsPrefix "Bearer ".data h.data
  if headerMissing then
    if isSSE then
      .sseError 401 "error"
        "\x7b\"error\": \"unauthorized\", \"error_description\": \"Authorization required\"\x7d"
    else
      let protocol := effectiveProtocol req.protocol req.cfVisitorScheme req.xForwardedProto
      let baseUrl := protocol ++ "://" ++ req.host
      .jsonError 401
        (some ("Bearer realm=\"MCP\", resource_metadata=\"" ++ baseUrl
          ++ "/.well-known/oauth-protected-resource\""))
        ⟨"unauthorized", "Authorization required. Use OAuth 2.1 flow."⟩
  else
    let token := String.mk ((req.authorization.getD "").data.drop 7)
    match verify token with
    | .ok a => .next a
    | .error _ =>
      if isSSE then
        .sseError 401 "error"
          "\x7b\"error\": \"invalid_token\", \"error_description\": \"Invalid or expired access token\"\x7d"
      else
        .jsonError 401 none ⟨"invalid_token", "Invalid or expired access token"⟩

/-! ## The remaining auth-store operations -/

/-- `setAuth(sessionId, authInfo)`: store in the map and mark as current. -/
def setAuth (sessionId : String) (authInfo : SpotifyAuthInfo) (s : AuthStore) : AuthStore :=
  { authMap := mapSet s.authMap sessionId authInfo, currentAuthInfo := some authInfo }

/-- `getAuth(sessionId)`. -/
def getAuth (sessionId : String) (s : AuthStore) : Option SpotifyAuthInfo :=
  mapGet s.authMap sessionId

/-- `getCurrentAuth()`. -/
def getCurrentAuth (s : AuthStore) : Option SpotifyAuthInfo :=
  s.currentAuthInfo

/-- `updateCurrentAuth(newAuthInfo)`: replace the current slot, then walk the
map in insertion order and overwrite the first entry only (`break` after one
`set`). -/
def updateCurrentAuth (newAuthInfo : SpotifyAuthInfo) (s : AuthStore) : AuthStore :=
  { currentAuthInfo := some newAuthInfo
    authMap :=
      match s.authMap with
      | [] => s.authMap
      | (sessionId, _) :: _ => mapSet s.authMap sessionId newAuthInfo }

/-- `removeAuth(sessionId)`: delete the binding; clear the current slot only
when the map became empty. -/
def removeAuth (sessionId : String) (s : AuthStore) : AuthStore :=
  let m := mapDelete s.authMap sessionId
  { authMap := m
    currentAuthInfo :=
      if s.currentAuthInfo.isSome ∧ m.isEmpty then none else s.currentAuthInfo }

/-! ## Concrete fixtures used by witnesses and counterexamples -/

/-- A concrete configuration. -/
def cfgW : OAuthConfig :=
  { SPOTIFY_CLIENT_ID := "spotify-client-id"
    SPOTIFY_CLIENT_SECRET := "sec"
    REDIRECT_URL := "http://localhost:3000/oauth/spotify/callback"
    JWT_SECRET := "test-jwt-secret"
    OAUTH_ISSUER := "http://localhost:3000"
    validRedirectUris := [] }

def tokensW : SpotifyTokens := ⟨"spotify-access", "spotify-refresh"⟩

/-- A stored authorization code bound to the challenge derived from the
verifier `"verifier-wins"`; expires at ms 600000. -/
def acW : AuthorizationCode :=
  { clientId := "mcp-public-client"
    redirectUri := "https://example.com/cb"
    codeChallenge := OAuthProvider.generateCodeChallenge "verifier-wins"
    userId := "user1"
    spotifyTokens := tokensW
    expiresAt := 600000 }

/-- A stored refresh-token record; expires at ms 700000. -/
def rtdW : RefreshTokenData :=
  { userId := "user1", clientId := "mcp-public-client"
    spotifyTokens := tokensW, expiresAt := 700000 }

/-- Provider store holding the code `"K"` and the refresh token `"R"`. -/
def stW : OAuthStoreState :=
  { pendingAuthorizations := []
    authorizationCodes := [("K", acW)]
    refreshTokens := [("R", rtdW)]
    pendingTimers := [] }

/-- A pending authorization with upstream nonce `"sp"`. -/
def pendW : PendingAuthorization :=
  { clientId := "mcp-public-client", redirectUri := "https://example.com/cb"
    codeChallenge := "C", codeChallengeMethod := "S256"
    state := some "client-state", scope := "read", spotifyState := "sp" }

/-- Provider store holding the pending entry `"pk"` whose scheduled deletion
fires at ms 600000. -/
def pendStW : OAuthStoreState :=
  { pendingAuthorizations := [("pk", pendW)]
    authorizationCodes := []
    refreshTokens := []
    pendingTimers := [("pk", 600000)] }

/-- A complete authorization-code exchange request for code `"K"`. -/
def reqCodeW : TokenRequest :=
  { grant_type := some "authorization_code"
    code := some "K"
    redirect_uri := some "https://example.com/cb"
    code_verifier := some "verifier-wins"
    client_id := some "mcp-public-client"
    refresh_token := none }

/-- A refresh-token grant request for token `"R"`. -/
def reqRefreshW : TokenRequest :=
  { grant_type := some "refresh_token"
    code := none, redirect_uri := none, code_verifier := none, client_id := none
    refresh_token := some "R" }

/-- A valid authorization request. -/
def reqAuthW : AuthorizeRequest :=
  { client_id := some "mcp-public-client"
    redirect_uri := some "https://example.com/cb"
    response_type := some "code"
    code_challenge := some "C"
    code_challenge_method := some "S256"
    state := some "client-state"
    scope := none }

/-- An auth store with two bound sessions. -/
def authStoreW : AuthStore :=
  { authMap := [("s1", ⟨"user1", "a1", "r1"⟩), ("s2", ⟨"user2", "a2", "r2"⟩)]
    currentAuthInfo := some ⟨"user2", "a2", "r2"⟩ }

/-! ## Shared lemmas -/

theorem mapGet_mapDelete {α : Type} (m : List (String × α)) (k : String) :
    mapGet (mapDelete m k) k = none := by
  induction m with
  | nil => rfl
  | cons kv rest ih =>
    by_cases hk : kv.1 = k
    · simpa [mapDelete, List.filter_cons, hk] using ih
    · simpa [mapDelete, List.filter_cons, hk, mapGet] using ih

/-- `Map.set` on a key not yet present appends at the end (JS insertion order). -/
theorem mapSet_of_absent {α : Type} (m : List (String × α)) (k : String) (v : α)
    (h : mapGet m k = none) : mapSet m k v = m ++ [(k, v)] := by
  induction m with
  | nil => rfl
  | cons kv rest ih =>
    by_cases hk : kv.1 = k
    · simp [mapGet, hk] at h
    · simp [mapGet, hk] at h
      simp [mapSet, hk, ih h]

/-- RFC 7636 appendix B test vector: validates the SHA-256 + base64url stack. -/
theorem generateCodeChallenge_rfc7636_vector :
    OAuthProvider.generateCodeChallenge "dBjftJeZ4CVP-mB92K27uhbUJU1p1r_wW1gFWFOEjXk"
      = "E9Melhoa2OwvFrEMTJguCHaoeK1t8URWbuGJSstw-cM" := by decide

/-! ## Claim theorems -/

/-- **C1**: the redirect-URI policy evaluated at the spec's five examples.
The claim (and the handler's own comments and error text, "Must use HTTPS,
localhost HTTP, or custom scheme") requires `http://example.com/cb` and
`ftp://x` to be rejected, but the handler accepts both: after the HTTPS and
localhost-HTTP branches fail, the generic custom-scheme branch tests
`url.protocol` against `/^[a-zA-Z][a-zA-Z0-9+.-]*:$/`, and `"http:"` and
`"ftp:"` match that regex, so the fall-through accepts every syntactically
well-formed scheme, including non-loopback HTTP. -/
theorem C1_redirect_uri_policy_evaluation :
    validateRedirectUri "https://example.com/cb" = true
      ∧ validateRedirectUri "http://localhost:8888/cb" = true
      ∧ validateRedirectUri "myapp://callback" = true
      ∧ validateRedirectUri "http://example.com/cb" = true
      ∧ validateRedirectUri "ftp://x" = true := by decide

/-- **C2** counterexample: a pending authorization whose scheduled ten-minute
deletion (timer due at ms 600000) has not yet been run by the event loop is
still accepted by the `/callback` read path.  `callbackPendingCheck` takes no
clock at all — the handler compares no expiry on pending entries — so at
every access time, in particular any time after ms 600000, the
expired-but-unswept entry is returned rather than treated as absent,
contrary to the claim. -/
theorem C2_counterexample_expired_pending_still_read :
    callbackPendingCheck pendStW "pk:sp" = some pendW := by decide

/-- **C2** (amended): authorization codes older than their timeout are
treated as absent on the very next read — the token endpoint compares
`expiresAt` with the current time, deletes the expired entry eagerly and
rejects with `invalid_grant` (second conjunct).  Pending authorizations, in
contrast, are removed only by the deletion scheduled with `setTimeout`: the
`/callback` read path performs no expiry comparison — acceptance needs no
time hypothesis whatsoever (first conjunct) — and it is the timer run, not
the read, that deletes the entry (third conjunct). -/
theorem C2_expiry_read_paths :
    (∀ (st : OAuthStoreState) (stateParam pk sp : String) (p : PendingAuthorization),
      splitStateParam stateParam = (pk, some sp) →
      mapGet st.pendingAuthorizations pk = some p →
      p.spotifyState = sp →
      callbackPendingCheck st stateParam = some p) ∧
    (∀ (cfg : OAuthConfig) (st : OAuthStoreState) (req : TokenRequest)
        (nowMs : Nat) (fresh code : String) (ac : AuthorizationCode),
      req.grant_type = some "authorization_code" →
      req.code = some code →
      strParamMissing req.code = false →
      strParamMissing req.redirect_uri = false →
      strParamMissing req.code_verifier = false →
      strParamMissing req.client_id = false →
      mapGet st.authorizationCodes code = some ac →
      ac.expiresAt < nowMs →
      oauthToken cfg st req nowMs fresh =
        (.err 400 ⟨"invalid_grant", "Invalid or expired authorization code"⟩,
         { st with authorizationCodes := mapDelete st.authorizationCodes code }) ∧
      mapGet (oauthToken cfg st req nowMs fresh).2.authorizationCodes code = none) ∧
    (∀ (st : OAuthStoreState) (k : String) (t nowMs : Nat),
      st.pendingTimers = [(k, t)] → t ≤ nowMs →
      mapGet (runPendingTimers st nowMs).pendingAuthorizations k = none) := by
  refine ⟨?_, ?_, ?_⟩
  · intro st stateParam pk sp p hsplit hget hsp
    simp [callbackPendingCheck, hsplit, hget, hsp]
  · intro cfg st req nowMs fresh code ac hg hc h1 h2 h3 h4 hget hexp
    rw [hc] at h1
    constructor
    · simp [oauthToken, hg, hc, h1, h2, h3, h4, hget, hexp]
    · simp [oauthToken, hg, hc, h1, h2, h3, h4, hget, hexp, mapGet_mapDelete]
  · intro st k t nowMs htimers hle
    simp [runPendingTimers, htimers, hle, mapGet_mapDelete]

/-- Witness for `C2_expiry_read_paths`: the pending entry of `pendStW` is
read back with no regard to time; the code `"K"` of `stW`, expired at access
time ms 700000, is rejected and deleted; the due timer of `pendStW` removes
the pending entry. -/
theorem C2_expiry_read_paths_witness :
    callbackPendingCheck pendStW "pk:sp" = some pendW ∧
    oauthToken cfgW stW reqCodeW 700000 "fresh"
      = (.err 400 ⟨"invalid_grant", "Invalid or expired authorization code"⟩,
         { stW with authorizationCodes := mapDelete stW.authorizationCodes "K" }) ∧
    mapGet (runPendingTimers pendStW 600000).pendingAuthorizations "pk" = none := by
  refine ⟨?_, ?_, ?_⟩
  · exact C2_expiry_read_paths.1 pendStW "pk:sp" "pk" "sp" pendW (by decide) rfl rfl
  · exact (C2_expiry_read_paths.2.1 cfgW stW reqCodeW 700000 "fresh" "K" acW rfl rfl rfl rfl
      rfl rfl rfl (by decide)).1
  · exact C2_expiry_read_paths.2.2 pendStW "pk" 600000 600000 rfl (by decide)

/-- **C3**: the PKCE challenge derivation and its enforcement at the token
endpoint.  (1) `generateCodeChallenge` is the base64url-no-padding encoding
of the SHA-256 of the verifier's UTF-8 bytes, and (2) is deterministic.
(3) When the stored code is present, unexpired and the derived challenge
equals the stored one, the exchange succeeds with status 200, an access
token, a refresh token and `expires_in = 3600`.  (4) When the derived
challenge differs from the stored code's challenge the exchange fails with
`400 invalid_grant` whether or not the code is expired, and (5) when the
code is absent it fails with `400 invalid_grant` for every verifier. -/
theorem C3_pkce_binding_and_exchange :
    (∀ v : String, OAuthProvider.generateCodeChallenge v
        = String.mk (base64urlEncode (sha256 (utf8Bytes v)))) ∧
    (∀ v w : String, v = w →
        OAuthProvider.generateCodeChallenge v = OAuthProvider.generateCodeChallenge w) ∧
    (∀ (cfg : OAuthConfig) (st : OAuthStoreState) (req : TokenRequest)
        (nowMs : Nat) (fresh code : String) (ac : AuthorizationCode),
      req.grant_type = some "authorization_code" →
      req.code = some code →
      strParamMissing req.code = false →
      strParamMissing req.redirect_uri = false →
      strParamMissing req.code_verifier = false →
      strParamMissing req.client_id = false →
      mapGet st.authorizationCodes code = some ac →
      ¬ ac.expiresAt < nowMs →
      OAuthProvider.generateCodeChallenge (req.code_verifier.getD "") = ac.codeChallenge →
      oauthToken cfg st req nowMs fresh =
        (.ok { access_token :=
                 OAuthProvider.createAccessToken cfg ac.userId ac.spotifyTokens (nowMs / 1000)
               token_type := "Bearer"
               expires_in := 3600
               refresh_token := some fresh
               scope := "read" },
         { st with
             refreshTokens :=
               mapSet st.refreshTokens fresh
                 { userId := ac.userId, clientId := ac.clientId
                   spotifyTokens := ac.spotifyTokens
                   expiresAt := nowMs + REFRESH_TOKEN_TIMEOUT_MS }
             authorizationCodes := mapDelete st.authorizationCodes code }) ∧
      (oauthToken cfg st req nowMs fresh).1.status = 200) ∧
    (∀ (cfg : OAuthConfig) (st : OAuthStoreState) (req : TokenRequest)
        (nowMs : Nat) (fresh code : String) (ac : AuthorizationCode),
      req.grant_type = some "authorization_code" →
      req.code = some code →
      strParamMissing req.code = false →
      strParamMissing req.redirect_uri = false →
      strParamMissing req.code_verifier = false →
      strParamMissing req.client_id = false →
      mapGet st.authorizationCodes code = some ac →
      OAuthProvider.generateCodeChallenge (req.code_verifier.getD "") ≠ ac.codeChallenge →
      ∃ d, (oauthToken cfg st req nowMs fresh).1 = .err 400 ⟨"invalid_grant", d⟩) ∧
    (∀ (cfg : OAuthConfig) (st : OAuthStoreState) (req : TokenRequest)
        (nowMs : Nat) (fresh code : String),
      req.grant_type = some "authorization_code" →
      req.code = some code →
      strParamMissing req.code = false →
      strParamMissing req.redirect_uri = false →
      strParamMissing req.code_verifier = false →
      strParamMissing req.client_id = false →
      mapGet st.authorizationCodes code = none →
      (oauthToken cfg st req nowMs fresh).1
        = .err 400 ⟨"invalid_grant", "Invalid or expired authorization code"⟩) := by
  refine ⟨fun v => rfl, fun v w h => by rw [h], ?_, ?_, ?_⟩
  · intro cfg st req nowMs fresh code ac hg hc h1 h2 h3 h4 hget hexp hchal
    rw [hc] at h1
    constructor
    · simp [oauthToken, hg, hc, h1, h2, h3, h4, hget, hexp, hchal]
    · simp [oauthToken, hg, hc, h1, h2, h3, h4, hget, hexp, hchal, TokenOutcome.status]
  · intro cfg st req nowMs fresh code ac hg hc h1 h2 h3 h4 hget hchal
    rw [hc] at h1
    by_cases hexp : ac.expiresAt < nowMs
    · exact ⟨"Invalid or expired authorization code",
        by simp [oauthToken, hg, hc, h1, h2, h3, h4, hget, hexp]⟩
    · exact ⟨"Invalid code verifier",
        by simp [oauthToken, hg, hc, h1, h2, h3, h4, hget, hexp, hchal]⟩
  · intro cfg st req nowMs fresh code hg hc h1 h2 h3 h4 hget
    rw [hc] at h1
    simp [oauthToken, hg, hc, h1, h2, h3, h4, hget]

/-- Witness for `C3_pkce_binding_and_exchange`: the stored code `"K"` of
`stW` is bound to the challenge derived from `"verifier-wins"`; exchanging
with that verifier at ms 1000 succeeds, exchanging with a code bound to the
challenge `"nope"` fails, and exchanging an absent code fails. -/
theorem C3_pkce_binding_and_exchange_witness :
    OAuthProvider.generateCodeChallenge "verifier-wins"
      = String.mk (base64urlEncode (sha256 (utf8Bytes "verifier-wins"))) ∧
    oauthToken cfgW stW reqCodeW 1000 "fresh"
      = (.ok { access_token :=
                 OAuthProvider.createAccessToken cfgW acW.userId acW.spotifyTokens 1
               token_type := "Bearer"
               expires_in := 3600
               refresh_token := some "fresh"
               scope := "read" },
         { stW with
             refreshTokens :=
               mapSet stW.refreshTokens "fresh"
                 { userId := acW.userId, clientId := acW.clientId
                   spotifyTokens := acW.spotifyTokens
                   expiresAt := 1000 + REFRESH_TOKEN_TIMEOUT_MS }
             authorizationCodes := mapDelete stW.authorizationCodes "K" }) ∧
    (∃ d, (oauthToken cfgW
        { stW with authorizationCodes := [("K", { acW with codeChallenge := "nope" })] }
        reqCodeW 1000 "fresh").1 = .err 400 ⟨"invalid_grant", d⟩) ∧
    (oauthToken cfgW { stW with authorizationCodes := [] } reqCodeW 1000 "fresh").1
      = .err 400 ⟨"invalid_grant", "Invalid or expired authorization code"⟩ := by
  refine ⟨C3_pkce_binding_and_exchange.1 "verifier-wins", ?_, ?_, ?_⟩
  · exact (C3_pkce_binding_and_exchange.2.2.1 cfgW stW reqCodeW 1000 "fresh" "K" acW
      rfl rfl rfl rfl rfl rfl rfl (by decide) rfl).1
  · exact C3_pkce_binding_and_exchange.2.2.2.1 cfgW
      { stW with authorizationCodes := [("K", { acW with codeChallenge := "nope" })] }
      reqCodeW 1000 "fresh" "K" { acW with codeChallenge := "nope" }
      rfl rfl rfl rfl rfl rfl rfl (by decide)
  · exact C3_pkce_binding_and_exchange.2.2.2.2 cfgW { stW with authorizationCodes := [] }
      reqCodeW 1000 "fresh" "K" rfl rfl rfl rfl rfl rfl rfl

/-- **C4**: an authorization code is single-use.  Under the conditions that
make the first exchange succeed, the code is deleted by that exchange, and a
second exchange presenting the same code — with any verifier, at any time —
fails with `400 invalid_grant`. -/
theorem C4_code_single_use :
    ∀ (cfg : OAuthConfig) (st : OAuthStoreState) (req req' : TokenRequest)
      (nowMs nowMs' : Nat) (fresh fresh' code : String) (ac : AuthorizationCode),
      req.grant_type = some "authorization_code" →
      req.code = some code →
      strParamMissing req.code = false →
      strParamMissing req.redirect_uri = false →
      strParamMissing req.code_verifier = false →
      strParamMissing req.client_id = false →
      mapGet st.authorizationCodes code = some ac →
      ¬ ac.expiresAt < nowMs →
      OAuthProvider.generateCodeChallenge (req.code_verifier.getD "") = ac.codeChallenge →
      req'.grant_type = some "authorization_code" →
      req'.code = some code →
      strParamMissing req'.code = false →
      strParamMissing req'.redirect_uri = false →
      strParamMissing req'.code_verifier = false →
      strParamMissing req'.client_id = false →
      (∃ body, (oauthToken cfg st req nowMs fresh).1 = .ok body) ∧
      mapGet (oauthToken cfg st req nowMs fresh).2.authorizationCodes code = none ∧
      (oauthToken cfg (oauthToken cfg st req nowMs fresh).2 req' nowMs' fresh').1
        = .err 400 ⟨"invalid_grant", "Invalid or expired authorization code"⟩ := by
  intro cfg st req req' nowMs nowMs' fresh fresh' code ac
    hg hc h1 h2 h3 h4 hget hexp hchal hg' hc' h1' h2' h3' h4'
  have hfirst := (C3_pkce_binding_and_exchange.2.2.1 cfg st req nowMs fresh code ac
    hg hc h1 h2 h3 h4 hget hexp hchal).1
  have hnone : mapGet (oauthToken cfg st req nowMs fresh).2.authorizationCodes code = none := by
    rw [hfirst]
    exact mapGet_mapDelete _ _
  rw [hc'] at h1'
  refine ⟨⟨_, by rw [hfirst]⟩, hnone, ?_⟩
  rw [hfirst]
  simp [oauthToken, hg', hc', h1', h2', h3', h4', mapGet_mapDelete]

/-- Witness for `C4_code_single_use`: exchange code `"K"` of `stW`
successfully at ms 1000, then present the same code again. -/
theorem C4_code_single_use_witness :
    (∃ body, (oauthToken cfgW stW reqCodeW 1000 "fresh").1 = .ok body) ∧
    mapGet (oauthToken cfgW stW reqCodeW 1000 "fresh").2.authorizationCodes "K" = none ∧
    (oauthToken cfgW (oauthToken cfgW stW reqCodeW 1000 "fresh").2 reqCodeW 2000 "fresh2").1
      = .err 400 ⟨"invalid_grant", "Invalid or expired authorization code"⟩ :=
  C4_code_single_use cfgW stW reqCodeW reqCodeW 1000 2000 "fresh" "fresh2" "K" acW
    rfl rfl rfl rfl rfl rfl rfl (by decide) rfl rfl rfl rfl rfl rfl rfl

/-- **C5**: bearer verification.  (1) Verification succeeds exactly when the
signature matches HMAC-SHA256 under the active `JWT_SECRET`, the audience is
`spotify-mcp-server`, the issuer is the configured issuer, and `exp` is in
the future.  (2) A token whose signature does not match fails.  (3) A token
with `exp` in the past fails even when its signature is correct.  (4) Every
failure produces the same generic invalid-token error, carrying no detail
about which check failed. -/
theorem C5_bearer_verification :
    (∀ (cfg : OAuthConfig) (token : JWT) (nowSec : Nat),
      (∃ a, OAuthProvider.verifyAccessToken cfg token nowSec = .ok a) ↔
        (token.signature = hmacSHA256 (utf8Bytes cfg.JWT_SECRET) (signingInput token.payload)
          ∧ token.payload.aud = "spotify-mcp-server"
          ∧ token.payload.iss = cfg.OAUTH_ISSUER
          ∧ nowSec < token.payload.exp)) ∧
    (∀ (cfg : OAuthConfig) (token : JWT) (nowSec : Nat),
      token.signature ≠ hmacSHA256 (utf8Bytes cfg.JWT_SECRET) (signingInput token.payload) →
      OAuthProvider.verifyAccessToken cfg token nowSec
        = .error "Invalid or expired access token") ∧
    (∀ (cfg : OAuthConfig) (token : JWT) (nowSec : Nat),
      token.signature = hmacSHA256 (utf8Bytes cfg.JWT_SECRET) (signingInput token.payload) →
      token.payload.exp ≤ nowSec →
      OAuthProvider.verifyAccessToken cfg token nowSec
        = .error "Invalid or expired access token") ∧
    (∀ (cfg : OAuthConfig) (token : JWT) (nowSec : Nat),
      (∃ a, OAuthProvider.verifyAccessToken cfg token nowSec = .ok a) ∨
      OAuthProvider.verifyAccessToken cfg token nowSec
        = .error "Invalid or expired access token") := by
  refine ⟨?_, ?_, ?_, ?_⟩
  · intro cfg token nowSec
    constructor
    · intro ⟨a, ha⟩
      by_contra hchecks
      simp [OAuthProvider.verifyAccessToken, hchecks] at ha
    · intro hchecks
      refine ⟨{ token := token, clientId := "mcp-client", scopes := ["read"],
                expiresAt := token.payload.exp, userId := token.payload.sub,
                spotifyAccessToken := token.payload.spotify_access_token,
                spotifyRefreshToken := token.payload.spotify_refresh_token }, ?_⟩
      unfold OAuthProvider.verifyAccessToken
      rw [if_pos hchecks]
  · intro cfg token nowSec hsig
    simp [OAuthProvider.verifyAccessToken, hsig]
  · intro cfg token nowSec hsig hexp
    simp [OAuthProvider.verifyAccessToken, Nat.not_lt.mpr hexp]
  · intro cfg token nowSec
    by_cases hchecks :
      token.signature = hmacSHA256 (utf8Bytes cfg.JWT_SECRET) (signingInput token.payload)
        ∧ token.payload.aud = "spotify-mcp-server"
        ∧ token.payload.iss = cfg.OAUTH_ISSUER
        ∧ nowSec < token.payload.exp
    · refine .inl ⟨{ token := token, clientId := "mcp-client", scopes := ["read"],
                     expiresAt := token.payload.exp, userId := token.payload.sub,
                     spotifyAccessToken := token.payload.spotify_access_token,
                     spotifyRefreshToken := token.payload.spotify_refresh_token }, ?_⟩
      unfold OAuthProvider.verifyAccessToken
      rw [if_pos hchecks]
    · exact .inr (by simp [OAuthProvider.verifyAccessToken, hchecks])

/-- A correctly signed token under `cfgW`, issued at second 0. -/
def jwtGoodW : JWT :=
  OAuthProvider.createAccessToken cfgW "user1" tokensW 0

/-- The same claims with an empty (hence wrong) signature. -/
def jwtBadSigW : JWT :=
  { payload := jwtGoodW.payload, signature := [] }

set_option maxRecDepth 16384 in
/-- Witness for `C5_bearer_verification`: the tampered token fails, the
correctly signed token fails once its one-hour expiry (second 3600) has
passed — here at second 4000 — and verification of the good token at second
10 succeeds, instantiating the success direction of the characterization. -/
theorem C5_bearer_verification_witness :
    OAuthProvider.verifyAccessToken cfgW jwtBadSigW 10
      = .error "Invalid or expired access token" ∧
    OAuthProvider.verifyAccessToken cfgW jwtGoodW 4000
      = .error "Invalid or expired access token" ∧
    (∃ a, OAuthProvider.verifyAccessToken cfgW jwtGoodW 10 = .ok a) := by
  refine ⟨?_, ?_, ?_⟩
  · exact C5_bearer_verification.2.1 cfgW jwtBadSigW 10 (by decide)
  · exact C5_bearer_verification.2.2.1 cfgW jwtGoodW 4000 rfl (by decide)
  · exact (C5_bearer_verification.1 cfgW jwtGoodW 10).mpr ⟨rfl, rfl, rfl, by decide⟩

/-- **C6**: the refresh-token grant.  (1) A successful refresh leaves the
store unchanged — in particular the refresh-token record is not deleted and
stays reusable — and mints a bearer token whose claims embed exactly the
stored delegated Spotify access and refresh tokens, with no other store
interaction (no re-consent).  (2) An unknown refresh token fails with
`400 invalid_grant`; (3) an expired one fails with `400 invalid_grant`. -/
theorem C6_refresh_grant :
    (∀ (cfg : OAuthConfig) (st : OAuthStoreState) (req : TokenRequest)
        (nowMs : Nat) (fresh rt : String) (td : RefreshTokenData),
      req.grant_type = some "refresh_token" →
      req.refresh_token = some rt →
      strParamMissing req.refresh_token = false →
      mapGet st.refreshTokens rt = some td →
      ¬ td.expiresAt < nowMs →
      oauthToken cfg st req nowMs fresh =
        (.ok { access_token :=
                 OAuthProvider.createAccessToken cfg td.userId td.spotifyTokens (nowMs / 1000)
               token_type := "Bearer"
               expires_in := 3600
               refresh_token := none
               scope := "read" },
         st) ∧
      (OAuthProvider.createAccessToken cfg td.userId td.spotifyTokens
          (nowMs / 1000)).payload.spotify_access_token = td.spotifyTokens.accessToken ∧
      (OAuthProvider.createAccessToken cfg td.userId td.spotifyTokens
          (nowMs / 1000)).payload.spotify_refresh_token = td.spotifyTokens.refreshToken) ∧
    (∀ (cfg : OAuthConfig) (st : OAuthStoreState) (req : TokenRequest)
        (nowMs : Nat) (fresh rt : String),
      req.grant_type = some "refresh_token" →
      req.refresh_token = some rt →
      strParamMissing req.refresh_token = false →
      mapGet st.refreshTokens rt = none →
      (oauthToken cfg st req nowMs fresh).1
        = .err 400 ⟨"invalid_grant", "Invalid or expired refresh token"⟩) ∧
    (∀ (cfg : OAuthConfig) (st : OAuthStoreState) (req : TokenRequest)
        (nowMs : Nat) (fresh rt : String) (td : RefreshTokenData),
      req.grant_type = some "refresh_token" →
      req.refresh_token = some rt →
      strParamMissing req.refresh_token = false →
      mapGet st.refreshTokens rt = some td →
      td.expiresAt < nowMs →
      (oauthToken cfg st req nowMs fresh).1
        = .err 400 ⟨"invalid_grant", "Invalid or expired refresh token"⟩) := by
  refine ⟨?_, ?_, ?_⟩
  · intro cfg st req nowMs fresh rt td hg hr h1 hget hexp
    rw [hr] at h1
    refine ⟨?_, rfl, rfl⟩
    simp [oauthToken, hg, hr, h1, hget, hexp]
  · intro cfg st req nowMs fresh rt hg hr h1 hget
    rw [hr] at h1
    simp [oauthToken, hg, hr, h1, hget]
  · intro cfg st req nowMs fresh rt td hg hr h1 hget hexp
    rw [hr] at h1
    simp [oauthToken, hg, hr, h1, hget, hexp]

/-- Witness for `C6_refresh_grant`: refreshing with the stored token `"R"`
of `stW` at ms 1000 succeeds without deleting it; an unknown token and an
expired one (access at ms 800000 > 700000) are rejected. -/
theorem C6_refresh_grant_witness :
    (oauthToken cfgW stW reqRefreshW 1000 "unused"
      = (.ok { access_token :=
                 OAuthProvider.createAccessToken cfgW rtdW.userId rtdW.spotifyTokens 1
               token_type := "Bearer"
               expires_in := 3600
               refresh_token := none
               scope := "read" },
         stW) ∧
     (OAuthProvider.createAccessToken cfgW rtdW.userId rtdW.spotifyTokens
         1).payload.spotify_access_token = rtdW.spotifyTokens.accessToken ∧
     (OAuthProvider.createAccessToken cfgW rtdW.userId rtdW.spotifyTokens
         1).payload.spotify_refresh_token = rtdW.spotifyTokens.refreshToken) ∧
    (oauthToken cfgW { stW with refreshTokens := [] } reqRefreshW 1000 "unused").1
      = .err 400 ⟨"invalid_grant", "Invalid or expired refresh token"⟩ ∧
    (oauthToken cfgW stW reqRefreshW 800000 "unused").1
      = .err 400 ⟨"invalid_grant", "Invalid or expired refresh token"⟩ := by
  refine ⟨?_, ?_, ?_⟩
  · exact C6_refresh_grant.1 cfgW stW reqRefreshW 1000 "unused" "R" rtdW
      rfl rfl rfl rfl (by decide)
  · exact C6_refresh_grant.2.1 cfgW { stW with refreshTokens := [] } reqRefreshW 1000
      "unused" "R" rfl rfl rfl rfl
  · exact C6_refresh_grant.2.2 cfgW stW reqRefreshW 800000 "unused" "R" rtdW
      rfl rfl rfl rfl (by decide)

/-- **C7**: requests rejected with a validation error leave the state store
untouched.  For the authorization endpoint, any `invalid_request` or
`unsupported_response_type` rejection returns the provider store and the
auth store unchanged; for the token endpoint, any `invalid_request` or
`unsupported_grant_type` rejection returns the provider store unchanged.
(The `invalid_grant` deletions of expired entries are outside the claim's
error list.) -/
theorem C7_validation_reject_no_mutation :
    (∀ (cfg : OAuthConfig) (st : OAuthStoreState) (auth : AuthStore)
        (req : AuthorizeRequest) (nowMs : Nat) (ss ak sru : String)
        (s : Nat) (b : ErrorBody),
      (oauthAuthorize cfg st auth req nowMs ss ak sru).1 = .err s b →
      b.error = "invalid_request" ∨ b.error = "unsupported_response_type" →
      (oauthAuthorize cfg st auth req nowMs ss ak sru).2.1 = st ∧
      (oauthAuthorize cfg st auth req nowMs ss ak sru).2.2 = auth) ∧
    (∀ (cfg : OAuthConfig) (st : OAuthStoreState) (req : TokenRequest)
        (nowMs : Nat) (fresh : String) (s : Nat) (b : ErrorBody),
      (oauthToken cfg st req nowMs fresh).1 = .err s b →
      b.error = "invalid_request" ∨ b.error = "unsupported_grant_type" →
      (oauthToken cfg st req nowMs fresh).2 = st) := by
  constructor
  · intro cfg st auth req nowMs ss ak sru s b h hmem
    unfold oauthAuthorize at h ⊢
    split_ifs at h ⊢ <;> simp_all
  · intro cfg st req nowMs fresh s b h hmem
    unfold oauthToken at h ⊢
    split_ifs at h ⊢
    all_goals try rfl
    · rcases hget : mapGet st.authorizationCodes (req.code.getD "") with _ | ac
      all_goals simp only [hget] at h ⊢
      all_goals try split_ifs at h ⊢
      all_goals simp_all
      all_goals obtain ⟨hs1, hb1⟩ := h
      all_goals subst hb1
      all_goals rcases hmem with hx | hx
      all_goals exact absurd hx (by decide)
    · rcases hget : mapGet st.refreshTokens (req.refresh_token.getD "") with _ | td
      all_goals simp only [hget] at h ⊢
      all_goals try split_ifs at h ⊢
      all_goals simp_all
      all_goals obtain ⟨hs1, hb1⟩ := h
      all_goals subst hb1
      all_goals rcases hmem with hx | hx
      all_goals exact absurd hx (by decide)

/-- Witness for `C7_validation_reject_no_mutation`: an authorization request
missing its `client_id` and a token request with an unknown grant type are
both rejected without touching any store. -/
theorem C7_validation_reject_no_mutation_witness :
    ((oauthAuthorize cfgW stW authStoreW { reqAuthW with client_id := none } 0 "ss" "ak"
        "cb").2.1 = stW ∧
      (oauthAuthorize cfgW stW authStoreW { reqAuthW with client_id := none } 0 "ss" "ak"
        "cb").2.2 = authStoreW) ∧
    (oauthToken cfgW stW { reqCodeW with grant_type := some "password" } 0 "fresh").2
      = stW := by
  constructor
  · exact C7_validation_reject_no_mutation.1 cfgW stW authStoreW
      { reqAuthW with client_id := none } 0 "ss" "ak" "cb" 400
      ⟨"invalid_request", "Missing required parameters"⟩ (by decide) (by decide)
  · exact C7_validation_reject_no_mutation.2 cfgW stW
      { reqCodeW with grant_type := some "password" } 0 "fresh" 400
      ⟨"unsupported_grant_type",
        "Only authorization_code and refresh_token grant types are supported"⟩
      (by decide) (by decide)

/-- **C8** counterexample: a request whose `Authorization` header carries an
invalid bearer token (the verifier rejects it) and which is not an
event-stream GET receives `401 invalid_token` with **no** `WWW-Authenticate`
header — the code attaches `WWW-Authenticate` only on the missing-header
path — contradicting the claim that every 401 for an absent-or-invalid
token carries the header. -/
theorem C8_counterexample_invalid_token_lacks_www_authenticate :
    authMiddleware (fun _ => .error "Invalid or expired access token")
      { authorization := some "Bearer not-a-valid-jwt", method := "POST", accept := none,
        protocol := "http", cfVisitorScheme := none, xForwardedProto := none,
        host := "example.com" }
      = .jsonError 401 none ⟨"invalid_token", "Invalid or expired access token"⟩ := by
  decide

/-- **C8** (amended): (1) a request with a missing or non-`Bearer`
`Authorization` header that is not an event-stream GET gets `401` with a
`WWW-Authenticate` header pointing at
`/.well-known/oauth-protected-resource` on the request's base URL;
(2) the same condition on an event-stream GET yields the error as an SSE
stream event (with no `WWW-Authenticate`); (3) a present `Bearer` token that
fails verification yields `401 invalid_token` as JSON without
`WWW-Authenticate`, and (4) as an SSE event for event-stream GETs;
(5) a token that verifies passes the request through with `req.auth` set. -/
theorem C8_unauthenticated_response_shape :
    (∀ (verify : String → Except String AuthInfo) (req : MCPRequest),
      (match req.authorization with
       | none => true
       | some h => !charsPrefix "Bearer ".data h.data) = true →
      (req.method = "GET" && (match req.accept with
         | some a => strContains a "text/event-stream"
         | none => false)) = false →
      authMiddleware verify req
        = .jsonError 401
            (some ("Bearer realm=\"MCP\", resource_metadata=\""
              ++ (effectiveProtocol req.protocol req.cfVisitorScheme req.xForwardedProto
                ++ "://" ++ req.host)
              ++ "/.well-known/oauth-protected-resource\""))
            ⟨"unauthorized", "Authorization required. Use OAuth 2.1 flow."⟩) ∧
    (∀ (verify : String → Except String AuthInfo) (req : MCPRequest),
      (match req.authorization with
       | none => true
       | some h => !charsPrefix "Bearer ".data h.data) = true →
      (req.method = "GET" && (match req.accept with
         | some a => strContains a "text/event-stream"
         | none => false)) = true →
      authMiddleware verify req
        = .sseError 401 "error"
            "\x7b\"error\": \"unauthorized\", \"error_description\": \"Authorization required\"\x7d") ∧
    (∀ (verify : String → Except String AuthInfo) (req : MCPRequest) (h e : String),
      req.authorization = some h →
      charsPrefix "Bearer ".data h.data = true →
      verify (String.mk (h.data.drop 7)) = .error e →
      (req.method = "GET" && (match req.accept with
         | some a => strContains a "text/event-stream"
         | none => false)) = false →
      authMiddleware verify req
        = .jsonError 401 none ⟨"invalid_token", "Invalid or expired access token"⟩) ∧
    (∀ (verify : String → Except String AuthInfo) (req : MCPRequest) (h e : String),
      req.authorization = some h →
      charsPrefix "Bearer ".data h.data = true →
      verify (String.mk (h.data.drop 7)) = .error e →
      (req.method = "GET" && (match req.accept with
         | some a => strContains a "text/event-stream"
         | none => false)) = true →
      authMiddleware verify req
        = .sseError 401 "error"
            "\x7b\"error\": \"invalid_token\", \"error_description\": \"Invalid or expired access token\"\x7d") ∧
    (∀ (verify : String → Except String AuthInfo) (req : MCPRequest) (h : String)
        (a : AuthInfo),
      req.authorization = some h →
      charsPrefix "Bearer ".data h.data = true →
      verify (String.mk (h.data.drop 7)) = .ok a →
      authMiddleware verify req = .next a) := by
  refine ⟨?_, ?_, ?_, ?_, ?_⟩
  · intro verify req hmiss hsse
    simp only [authMiddleware, hmiss, hsse]
    rfl
  · intro verify req hmiss hsse
    simp only [authMiddleware, hmiss, hsse]
    rfl
  · intro verify req h e hauth hpre hver hsse
    simp [authMiddleware, hauth, hpre, hver, hsse]
  · intro verify req h e hauth hpre hver hsse
    simp [authMiddleware, hauth, hpre, hver, hsse]
  · intro verify req h a hauth hpre hver
    simp [authMiddleware, hauth, hpre, hver]

/-- A fixed verifier outcome used by the middleware witnesses. -/
def authInfoW : AuthInfo :=
  { token := jwtBadSigW, clientId := "mcp-client", scopes := ["read"], expiresAt := 3600
    userId := "user1", spotifyAccessToken := "a1", spotifyRefreshToken := "r1" }

/-- Witness for `C8_unauthenticated_response_shape` at concrete requests:
no header (JSON and SSE flavors), a rejected bearer token (JSON and SSE
flavors), and an accepted one. -/
theorem C8_unauthenticated_response_shape_witness :
    authMiddleware (fun _ => .error "Invalid or expired access token")
        { authorization := none, method := "POST", accept := none, protocol := "http",
          cfVisitorScheme := none, xForwardedProto := none, host := "example.com" }
      = .jsonError 401
          (some "Bearer realm=\"MCP\", resource_metadata=\"http://example.com/.well-known/oauth-protected-resource\"")
          ⟨"unauthorized", "Authorization required. Use OAuth 2.1 flow."⟩ ∧
    authMiddleware (fun _ => .error "Invalid or expired access token")
        { authorization := none, method := "GET", accept := some "text/event-stream",
          protocol := "http", cfVisitorScheme := none, xForwardedProto := none,
          host := "example.com" }
      = .sseError 401 "error"
          "\x7b\"error\": \"unauthorized\", \"error_description\": \"Authorization required\"\x7d" ∧
    authMiddleware (fun _ => .error "Invalid or expired access token")
        { authorization := some "Bearer bad", method := "POST", accept := none,
          protocol := "http", cfVisitorScheme := none, xForwardedProto := none,
          host := "example.com" }
      = .jsonError 401 none ⟨"invalid_token", "Invalid or expired access token"⟩ ∧
    authMiddleware (fun _ => .error "Invalid or expired access token")
        { authorization := some "Bearer bad", method := "GET",
          accept := some "text/event-stream", protocol := "http", cfVisitorScheme := none,
          xForwardedProto := none, host := "example.com" }
      = .sseError 401 "error"
          "\x7b\"error\": \"invalid_token\", \"error_description\": \"Invalid or expired access token\"\x7d" ∧
    authMiddleware (fun _ => .ok authInfoW)
        { authorization := some "Bearer good", method := "POST", accept := none,
          protocol := "http", cfVisitorScheme := none, xForwardedProto := none,
          host := "example.com" }
      = .next authInfoW := by
  refine ⟨?_, ?_, ?_, ?_, ?_⟩
  · exact C8_unauthenticated_response_shape.1 _ _ rfl rfl
  · exact C8_unauthenticated_response_shape.2.1 _ _ rfl (by decide)
  · exact C8_unauthenticated_response_shape.2.2.1 _ _ "Bearer bad" _ rfl (by decide) rfl rfl
  · exact C8_unauthenticated_response_shape.2.2.2.1 _ _ "Bearer bad" _ rfl (by decide) rfl
      (by decide)
  · exact C8_unauthenticated_response_shape.2.2.2.2 _ _ "Bearer good" authInfoW rfl
      (by decide) rfl

/-- **C9**: every authorization request that passes validation — i.e. whose
outcome is the redirect to the upstream consent endpoint — leaves the auth
store cleared: the session map is emptied and the `currentAuthInfo` slot is
absent, before the redirect is returned. -/
theorem C9_authorize_clears_session_bindings :
    ∀ (cfg : OAuthConfig) (st : OAuthStoreState) (auth : AuthStore)
      (req : AuthorizeRequest) (nowMs : Nat) (ss ak sru : String)
      (p : SpotifyRedirectParams),
      (oauthAuthorize cfg st auth req nowMs ss ak sru).1 = .redirect p →
      (oauthAuthorize cfg st auth req nowMs ss ak sru).2.2
        = { authMap := [], currentAuthInfo := none } := by
  intro cfg st auth req nowMs ss ak sru p h
  unfold oauthAuthorize at h ⊢
  split_ifs at h ⊢
  all_goals simp_all [clearAuth]

set_option maxRecDepth 16384 in
/-- Witness for `C9_authorize_clears_session_bindings`: a valid request over
the populated two-session store `authStoreW` empties it. -/
theorem C9_authorize_clears_session_bindings_witness :
    (oauthAuthorize cfgW stW authStoreW reqAuthW 0 "ss" "ak"
        "http://localhost:3000/oauth/spotify/callback").2.2
      = { authMap := [], currentAuthInfo := none } :=
  C9_authorize_clears_session_bindings cfgW stW authStoreW reqAuthW 0 "ss" "ak"
    "http://localhost:3000/oauth/spotify/callback"
    { client_id := "spotify-client-id", response_type := "code", state := "ak:ss"
      redirect_uri := "http://localhost:3000/oauth/spotify/callback"
      scope := spotifyConsentScope, show_dialog := "true" }
    (by decide)

/-- **C10**: with at least two sessions bound, `updateCurrentAuth` replaces
the process-wide current credentials and overwrites the stored entry of only
the earliest-bound session (the head of the insertion-ordered map), leaving
every other session's entry unchanged — regardless of which session the
current credentials belonged to.  The second conjunct grounds the
insertion-order reading: `setAuth` on a fresh session id appends at the end,
so the head of the map is the earliest-bound session. -/
theorem C10_updateCurrentAuth_overwrites_first_bound_session :
    (∀ (newInfo : SpotifyAuthInfo) (s : AuthStore) (k1 k2 : String)
        (v1 v2 : SpotifyAuthInfo) (rest : List (String × SpotifyAuthInfo)),
      s.authMap = (k1, v1) :: (k2, v2) :: rest →
      (updateCurrentAuth newInfo s).currentAuthInfo = some newInfo ∧
      (updateCurrentAuth newInfo s).authMap = (k1, newInfo) :: (k2, v2) :: rest) ∧
    (∀ (s : AuthStore) (k : String) (v : SpotifyAuthInfo),
      mapGet s.authMap k = none →
      (setAuth k v s).authMap = s.authMap ++ [(k, v)] ∧
      (setAuth k v s).currentAuthInfo = some v) := by
  constructor
  · intro newInfo s k1 k2 v1 v2 rest h
    refine ⟨rfl, ?_⟩
    simp [updateCurrentAuth, h, mapSet]
  · intro s k v h
    exact ⟨by simp [setAuth, mapSet_of_absent s.authMap k v h], rfl⟩

/-- Witness for `C10_updateCurrentAuth_overwrites_first_bound_session` on the
two-session store `authStoreW`, whose current credentials belong to the
second session: only session `"s1"` is overwritten, `"s2"` keeps its entry,
and binding a fresh `"s3"` appends at the end. -/
theorem C10_updateCurrentAuth_overwrites_first_bound_session_witness :
    ((updateCurrentAuth ⟨"user9", "newA", "newR"⟩ authStoreW).currentAuthInfo
        = some ⟨"user9", "newA", "newR"⟩ ∧
      (updateCurrentAuth ⟨"user9", "newA", "newR"⟩ authStoreW).authMap
        = [("s1", ⟨"user9", "newA", "newR"⟩), ("s2", ⟨"user2", "a2", "r2"⟩)]) ∧
    (setAuth "s3" ⟨"user3", "a3", "r3"⟩ authStoreW).authMap
        = authStoreW.authMap ++ [("s3", ⟨"user3", "a3", "r3"⟩)] ∧
    (setAuth "s3" ⟨"user3", "a3", "r3"⟩ authStoreW).currentAuthInfo
        = some ⟨"user3", "a3", "r3"⟩ := by
  constructor
  · exact C10_updateCurrentAuth_overwrites_first_bound_session.1
      ⟨"user9", "newA", "newR"⟩ authStoreW "s1" "s2" ⟨"user1", "a1", "r1"⟩
      ⟨"user2", "a2", "r2"⟩ [] rfl
  · exact C10_updateCurrentAuth_overwrites_first_bound_session.2
      authStoreW "s3" ⟨"user3", "a3", "r3"⟩ (by decide)
